import Mathlib

/-!
Verification of the observable-property and binding mechanism of the Boden
UI toolkit (`src/boden/include/bdn/property.h`).

The properties under study are generated by the `BDN_PROPERTY` family of
macros: a property is a typed value on an owner object with a getter, a
setter (no-op on equal value, otherwise store then notify) and a lazily
created change notifier.  Bindings (`BDN_BIND_TO_PROPERTY`,
`BDN_BIND_TO_PROPERTY_WITH_FILTER`, `BDN_BIND_PROPERTIES`) register a
subscriber on the sender property that forwards new values to the
receiver property through a weak reference to the receiver owner.

The embedding below models a world of two property owners `A` and `B`
(enough for every binding scenario: a binding always connects one sender
and one receiver).  Subscriber callbacks are represented by a small
inductive of exactly the callback shapes the source constructs
(`_makePropertySubscriber`, `_makePropertySubscriberWithFilter`, the raw
`makePropertySubscriberWithFilter`, plus a pure observer used to record
notification traces).  Setter and notification execution is a fuel-indexed
interpreter, so the mutual recursion between setters and notifiers of a
bidirectional binding is explicit and its termination on a fixed fuel is a
provable fact.

The classes `PropertyNotifier` (`bdn/PropertyNotifier.h`) and the smart
pointers `P` / `WeakP` are declared in headers that are not part of the
excerpt, so their behaviour (subscribe appends to an ordered list, notify
invokes the subscribers in order, an exception aborts the iteration and
propagates, a weak pointer resolves to null once the target is destroyed)
is modelled from the spec where noted.
-/

namespace Boden

/-- Identifier of the two property owners of the scenario world: `A` is used
as the receiver side of a binding, `B` as the sender side. -/
inductive PropId where
  | A
  | B
deriving DecidableEq, Repr

/-- Subscriber callbacks as constructed by `property.h`:

* `weakSetter target` — `_makePropertySubscriber` (property.h 374-386):
  captures a `WeakP` to the receiver owner; on invocation resolves it,
  throws `DanglingFunctionError` when the owner is gone, otherwise calls
  the receiver setter with the value.
* `weakSetterFilter target f` — `_makePropertySubscriberWithFilter`
  (property.h 389-401): same, but calls the setter with `f value`.
* `rawSetterFilter target f` — the non-underscore
  `makePropertySubscriberWithFilter` (property.h 440-446): captures the
  owner by raw pointer, performs no dangling check and calls the setter
  with `f value` unconditionally.
* `observer oid` — a plain callback with no effect on the properties; it
  records its invocation in the world's observation log, standing for an
  arbitrary user subscriber so that call counts and call order are
  observable. -/
inductive Sub (α : Type) where
  | weakSetter (target : PropId)
  | weakSetterFilter (target : PropId) (f : α → α)
  | rawSetterFilter (target : PropId) (f : α → α)
  | observer (oid : Nat)

/-- State of one property owner: the stored property value
(`_propertyValue_name` of `BDN_PROPERTY`, property.h 277), whether the
owner object is still alive (a `WeakP` to it resolves iff `alive`), and
the ordered subscriber list of the property's change notifier.

Modelled from the spec: the subscriber list itself lives in the
`PropertyNotifier` (`bdn/PropertyNotifier.h`, not in the excerpt); per the
spec it is an ordered collection, appended to by `subscribe` and iterated
in order by `notify`. -/
structure OwnerState (α : Type) where
  value : α
  alive : Bool
  subs : List (Sub α)

/-- The scenario world: two owners plus two traces. `obsLog` records every
invocation of an `observer` subscriber (its id and the value it was passed);
`setLog` records every invocation of a property setter (which property and
the argument), so "the setter was called exactly once with v" is a
statement about `setLog`. -/
structure World (α : Type) where
  a : OwnerState α
  b : OwnerState α
  obsLog : List (Nat × α)
  setLog : List (PropId × α)

variable {α : Type} [DecidableEq α]

/-- Owner state of property `p`. -/
def World.get (w : World α) : PropId → OwnerState α
  | .A => w.a
  | .B => w.b

/-- Replace the owner state of property `p`. -/
def World.setOwner (w : World α) (p : PropId) (o : OwnerState α) : World α :=
  match p with
  | .A => { w with a := o }
  | .B => { w with b := o }

/-- Pending activity of the interpreter: a setter call, the notification of
a subscriber list, or the invocation of a single subscriber. -/
inductive Act (α : Type) where
  | set (p : PropId) (v : α)
  | notifyList (subs : List (Sub α)) (v : α)
  | run (s : Sub α) (v : α)

/-- Result of running an activity: a new world, a
`DanglingFunctionError` carrying the world at throw time (the C++
exception unwinds the call stack but leaves the heap — stored values and
subscriber lists — as they were), or fuel exhaustion. -/
inductive Res (α : Type) where
  | ok (w : World α)
  | dangling (w : World α)
  | outOfFuel

/-- Fuel-indexed interpreter for setters, notification and subscriber
invocation.

* `set p v` is the `BDN_PROPERTY` setter (property.h 268-275):
  `if (_propertyValue_name != value) { _propertyValue_name = value;
  BDN_NOTIFY_PROPERTY_CHANGED(*this, name); }`.  The notification macro
  (property.h 341-342) fires the notifier with the property's read
  accessor, i.e. with the value re-read after the store, not with the
  setter argument.  Entry to the setter is recorded in `setLog`.
* `notifyList subs v` — modelled from the spec: `notify(value)` invokes
  every currently registered subscriber in subscription order; a failure
  aborts the iteration and propagates (C++ exception semantics).
* `run s v` invokes one subscriber, following the three `std::function`
  bodies built in property.h 374-401 and 440-446: the weak variants
  resolve the weak owner reference and throw `DanglingFunctionError` when
  it is gone; the raw variant calls the setter unconditionally; an
  observer only records its invocation. -/
def exec (fuel : Nat) (w : World α) (t : Act α) : Res α :=
  if _h : fuel = 0 then .outOfFuel
  else
    match t with
    | .set p v =>
        let w1 : World α := { w with setLog := w.setLog ++ [(p, v)] }
        if (w1.get p).value ≠ v then
          let w2 := w1.setOwner p { w1.get p with value := v }
          exec (fuel - 1) w2 (.notifyList ((w2.get p).subs) ((w2.get p).value))
        else .ok w1
    | .notifyList [] _ => .ok w
    | .notifyList (s :: rest) v =>
        match exec (fuel - 1) w (.run s v) with
        | .ok w' => exec (fuel - 1) w' (.notifyList rest v)
        | r => r
    | .run (.weakSetter t) v =>
        if (w.get t).alive then exec (fuel - 1) w (.set t v) else .dangling w
    | .run (.weakSetterFilter t f) v =>
        if (w.get t).alive then exec (fuel - 1) w (.set t (f v)) else .dangling w
    | .run (.rawSetterFilter t f) v =>
        exec (fuel - 1) w (.set t (f v))
    | .run (.observer i) v =>
        .ok { w with obsLog := w.obsLog ++ [(i, v)] }
  termination_by fuel
  decreasing_by all_goals omega

/-- Call the setter of property `p` with value `v`. -/
def setProp (fuel : Nat) (w : World α) (p : PropId) (v : α) : Res α :=
  exec fuel w (.set p v)

/-- Modelled from the spec: `PropertyNotifier::subscribe` appends the
callback to the sender's ordered subscriber list
(`bdn/PropertyNotifier.h` is not in the excerpt). -/
def subscribe (w : World α) (p : PropId) (s : Sub α) : World α :=
  w.setOwner p { w.get p with subs := (w.get p).subs ++ [s] }

/-- `BDN_BIND_TO_PROPERTY(receiverOwner, receiverSetterName, senderOwner,
senderPropName)` (property.h 430-437): first subscribe
`_makePropertySubscriber(&receiverOwner, &receiverSetter)` on the sender's
changed notifier, then call the receiver setter with the sender's current
value. -/
def bindToProperty (fuel : Nat) (w : World α) (receiver sender : PropId) : Res α :=
  let w1 := subscribe w sender (Sub.weakSetter receiver)
  setProp fuel w1 receiver ((w1.get sender).value)

/-- `BDN_BIND_TO_PROPERTY_WITH_FILTER(receiverOwner, receiverSetterName,
senderOwner, senderPropName, filterFunc)` (property.h 515-523): first
subscribe `_makePropertySubscriberWithFilter(&receiverOwner,
&receiverSetter, filterFunc)` on the sender's changed notifier, then call
the receiver setter with `filterFunc(sender current value)`. -/
def bindToPropertyWithFilter (fuel : Nat) (w : World α) (receiver sender : PropId)
    (filterFunc : α → α) : Res α :=
  let w1 := subscribe w sender (Sub.weakSetterFilter receiver filterFunc)
  setProp fuel w1 receiver (filterFunc ((w1.get sender).value))

/-- `BDN_BIND_PROPERTIES(ownerA, getterNameA, setterNameA, ownerB,
getterNameB, setterNameB)` (property.h 543-545): two one-way bindings,
first `BDN_BIND_TO_PROPERTY(ownerA, setterNameA, ownerB, getterNameB)`
(receiver `pA`, sender `pB`), then the reverse. -/
def bindProperties (fuel : Nat) (w : World α) (pA pB : PropId) : Res α :=
  match bindToProperty fuel w pA pB with
  | .ok w1 => bindToProperty fuel w1 pB pA
  | r => r

/-- The subscriber built by the non-underscore
`makePropertySubscriberWithFilter` (property.h 440-446): the owner is
captured by raw pointer and the setter is invoked unconditionally, with no
weak-reference resolution. -/
def makePropertySubscriberWithFilter (pOwner : PropId) (filterFunc : α → α) : Sub α :=
  Sub.rawSetterFilter pOwner filterFunc

/-- A world of two fresh owners: both alive, no subscribers, empty logs. -/
def freshWorld (a0 b0 : α) : World α :=
  { a := { value := a0, alive := true, subs := [] },
    b := { value := b0, alive := true, subs := [] },
    obsLog := [], setLog := [] }

/-- State backing `BDN_PROPERTY_CHANGED_DEFAULT_IMPLEMENTATION`
(property.h 173-181): the member `_pPropertyChanged_name`, a smart pointer
that is null until the first call of the `nameChanged()` accessor.
Notifier objects are identified by the allocation order of
`bdn::newObj<PropertyNotifier>`; `nextId` is the id the next allocation
would get, so two distinct allocations never yield the same id. -/
structure ChangedState where
  pPropertyChanged : Option Nat
  nextId : Nat

/-- The generated `nameChanged()` accessor (property.h 174-178):
`if (_pPropertyChanged_name == nullptr) _pPropertyChanged_name =
newObj<PropertyNotifier>(); return *_pPropertyChanged_name;`.  Returns the
identity of the returned notifier together with the updated member
state. -/
def nameChanged (s : ChangedState) : Nat × ChangedState :=
  match s.pPropertyChanged with
  | none => (s.nextId, { pPropertyChanged := some s.nextId, nextId := s.nextId + 1 })
  | some i => (i, s)

/-- State of the `Length` example object of property.h 96-134: the stored
representation `_meters` and the trace of values passed to
`centimetersChanged().notify(...)`.  The C++ value type is `double`; the
model uses exact rationals, which is faithful to every step of the example
except rounding (ℚ has exact division by 100). -/
structure LengthState where
  meters : ℚ
  notified : List ℚ

/-- The getter of the `centimeters` property (property.h 104-107):
`return _meters * 100;`. -/
def centimeters (s : LengthState) : ℚ :=
  s.meters * 100

/-- The custom setter `setCentimeters` (property.h 111-124):
`if (newValue != centimeters()) { _meters = newValue / 100;
BDN_NOTIFY_PROPERTY_CHANGED(*this, centimeters); }`.  The notification
macro (property.h 341-342) reads the property back through its read
accessor, so the value appended to the notification trace is
`centimeters()` of the updated state, not `newValue` itself. -/
def setCentimeters (s : LengthState) (newValue : ℚ) : LengthState :=
  if newValue ≠ centimeters s then
    let s1 : LengthState := { s with meters := newValue / 100 }
    { s1 with notified := s1.notified ++ [centimeters s1] }
  else s

/-- Notifying a list of pure observer subscribers appends one record per
observer, in list order, each carrying the notified value; fuel one more
than the list length suffices. -/
lemma exec_notifyList_observers (ids : List Nat) (w : World α) (v : α) :
    exec (ids.length + 1) w (.notifyList (ids.map Sub.observer) v) =
      .ok { w with obsLog := w.obsLog ++ ids.map (fun i => (i, v)) } := by
  induction ids generalizing w with
  | nil => simp [exec]
  | cons i rest ih => simp [exec, ih]

/-- C1: a setter call with a value equal to the current value returns with
only the setter-invocation trace extended: the stored value, the
subscriber lists, and the observation log (hence every subscriber's call
count) are exactly those of the input world, and the notifier is never
entered. -/
theorem setProp_equal_value_noop (fuel : Nat) (w : World α) (p : PropId) (v : α)
    (h : (w.get p).value = v) :
    setProp (fuel + 1) w p v = Res.ok { w with setLog := w.setLog ++ [(p, v)] } := by
  cases p <;> simp_all [setProp, exec, World.get]

/-- C1 witness: the no-op write evaluated on a concrete world. -/
theorem setProp_equal_value_noop_witness :
    setProp 5 (freshWorld 7 9) PropId.A 7 =
      Res.ok { freshWorld 7 9 with setLog := [(PropId.A, 7)] } :=
  setProp_equal_value_noop (α := Nat) 4 (freshWorld 7 9) PropId.A 7 rfl

/-- C2: a setter call with a value unequal to the current value stores the
new value and then invokes every currently registered subscriber exactly
once, in subscription order, with the new value (the notifier fires with
the property read back through its accessor, which for the default
storage is the freshly stored value); the subscriber list is left
unchanged, and with zero subscribers (`ids = []`) the notification appends
nothing.  Fuel `ids.length + 2` suffices, so the call terminates. -/
theorem setProp_unequal_value_notifies_in_order (ids : List Nat) (w : World α)
    (p : PropId) (v : α)
    (hsubs : (w.get p).subs = ids.map Sub.observer)
    (hne : (w.get p).value ≠ v) :
    ∃ w', setProp (ids.length + 2) w p v = Res.ok w'
      ∧ (w'.get p).value = v
      ∧ w'.obsLog = w.obsLog ++ ids.map (fun i => (i, v))
      ∧ (w'.get p).subs = (w.get p).subs
      ∧ w'.setLog = w.setLog ++ [(p, v)] := by
  cases p <;>
    simp_all [setProp, exec, World.get, World.setOwner,
      show ids.length + 2 - 1 = ids.length + 1 from rfl, exec_notifyList_observers]

/-- C2 witness: a changing write with two observer subscribers, both
notified in order with the new value. -/
theorem setProp_unequal_value_notifies_in_order_witness :
    ∃ w', setProp 4 ({ a := { value := 0, alive := true,
                              subs := [Sub.observer 10, Sub.observer 11] },
                       b := { value := 0, alive := true, subs := [] },
                       obsLog := [], setLog := [] } : World ℤ) PropId.A 5 = Res.ok w'
      ∧ (w'.get PropId.A).value = 5
      ∧ w'.obsLog = [(10, 5), (11, 5)]
      ∧ (w'.get PropId.A).subs = [Sub.observer 10, Sub.observer 11]
      ∧ w'.setLog = [(PropId.A, 5)] := by
  have h := setProp_unequal_value_notifies_in_order (α := ℤ) [10, 11]
    { a := { value := 0, alive := true, subs := [Sub.observer 10, Sub.observer 11] },
      b := { value := 0, alive := true, subs := [] },
      obsLog := [], setLog := [] } PropId.A 5 rfl (by decide)
  simpa using h

/-- C8: the default changed-notifier accessor allocates the notifier on
its first call (the stored pointer goes from absent to the identity the
call returned) and is a fixed point afterwards: calling the accessor on
the post-call state returns the same notifier identity and leaves the
state unchanged, so every later call during the property's lifetime
returns the same notifier object. -/
theorem nameChanged_lazy_and_stable (s : ChangedState) :
    (s.pPropertyChanged = none →
        ((nameChanged s).2).pPropertyChanged = some (nameChanged s).1)
    ∧ nameChanged ((nameChanged s).2) = ((nameChanged s).1, (nameChanged s).2) := by
  cases h : s.pPropertyChanged <;> simp [nameChanged, h]

/-- C8 witness: lazy creation and stability on a concrete fresh state. -/
theorem nameChanged_lazy_and_stable_witness :
    (({ pPropertyChanged := none, nextId := 0 } : ChangedState).pPropertyChanged = none →
        ((nameChanged { pPropertyChanged := none, nextId := 0 }).2).pPropertyChanged =
          some (nameChanged { pPropertyChanged := none, nextId := 0 }).1)
    ∧ nameChanged ((nameChanged { pPropertyChanged := none, nextId := 0 }).2) =
        ((nameChanged { pPropertyChanged := none, nextId := 0 }).1,
         (nameChanged { pPropertyChanged := none, nextId := 0 }).2) :=
  nameChanged_lazy_and_stable { pPropertyChanged := none, nextId := 0 }

/-- C3: `BDN_BIND_TO_PROPERTY` first registers the subscription (the
sender's subscriber list gains exactly the weak-setter subscriber, at the
end) and then invokes the receiver's setter exactly once (the setter
trace gains exactly one entry) with the sender's current value, so the
receiver's value equals the sender's value at the moment of binding and
the sender's value is untouched; the final conjunct is the definitional
decomposition showing the subscription is registered before the initial
synchronization runs. -/
theorem bindToProperty_syncs_immediately (w : World α) (p q : PropId)
    (hpq : p ≠ q) (hrsubs : (w.get p).subs = []) :
    ∃ w', bindToProperty 20 w p q = Res.ok w'
      ∧ (w'.get p).value = (w.get q).value
      ∧ (w'.get q).value = (w.get q).value
      ∧ (w'.get q).subs = (w.get q).subs ++ [Sub.weakSetter p]
      ∧ w'.setLog = w.setLog ++ [(p, (w.get q).value)]
      ∧ bindToProperty 20 w p q
          = setProp 20 (subscribe w q (Sub.weakSetter p)) p
              (((subscribe w q (Sub.weakSetter p)).get q).value) := by
  cases p <;> cases q <;> try exact absurd rfl hpq
  · by_cases h : w.a.value = w.b.value <;>
      simp_all [bindToProperty, setProp, subscribe, exec, World.get, World.setOwner]
  · by_cases h : w.b.value = w.a.value <;>
      simp_all [bindToProperty, setProp, subscribe, exec, World.get, World.setOwner]

/-- C3 witness: binding on a concrete fresh world. -/
theorem bindToProperty_syncs_immediately_witness :
    ∃ w', bindToProperty 20 (freshWorld (1 : ℤ) 2) PropId.A PropId.B = Res.ok w'
      ∧ (w'.get PropId.A).value = ((freshWorld (1 : ℤ) 2).get PropId.B).value
      ∧ (w'.get PropId.B).value = ((freshWorld (1 : ℤ) 2).get PropId.B).value
      ∧ (w'.get PropId.B).subs
          = ((freshWorld (1 : ℤ) 2).get PropId.B).subs ++ [Sub.weakSetter PropId.A]
      ∧ w'.setLog = (freshWorld (1 : ℤ) 2).setLog
          ++ [(PropId.A, ((freshWorld (1 : ℤ) 2).get PropId.B).value)]
      ∧ bindToProperty 20 (freshWorld (1 : ℤ) 2) PropId.A PropId.B
          = setProp 20 (subscribe (freshWorld (1 : ℤ) 2) PropId.B (Sub.weakSetter PropId.A))
              PropId.A
              (((subscribe (freshWorld (1 : ℤ) 2) PropId.B
                  (Sub.weakSetter PropId.A)).get PropId.B).value) :=
  bindToProperty_syncs_immediately (freshWorld 1 2) PropId.A PropId.B (by decide) rfl

/-- C4: when the receiver owner `A` is dead and the sender `B` (whose
notifier holds the stale weak-setter subscription) is set to a new value,
the stale subscription's weak reference fails to resolve and the call
fails with `DanglingFunctionError`: the failure propagates synchronously
out of the whole setter/notify call (the result of `setProp` itself is the
dangling outcome), the sender's new value has already been stored, the
broken subscription is still in the sender's subscriber list (no
automatic cleanup), no observer ran, and the setter trace shows no retry
(exactly the one triggering setter call was made). -/
theorem dangling_receiver_raises (w : World α) (v : α)
    (hdead : (w.get PropId.A).alive = false)
    (hsubs : (w.get PropId.B).subs = [Sub.weakSetter PropId.A])
    (hne : (w.get PropId.B).value ≠ v) :
    ∃ w', setProp 20 w PropId.B v = Res.dangling w'
      ∧ (w'.get PropId.B).value = v
      ∧ (w'.get PropId.B).subs = (w.get PropId.B).subs
      ∧ (w'.get PropId.A).subs = (w.get PropId.A).subs
      ∧ w'.obsLog = w.obsLog
      ∧ w'.setLog = w.setLog ++ [(PropId.B, v)] := by
  simp_all [setProp, exec, World.get, World.setOwner]

/-- C4 witness: a dead receiver on a concrete world. -/
theorem dangling_receiver_raises_witness :
    ∃ w', setProp 20 ({ a := { value := 0, alive := false, subs := [] },
                        b := { value := 0, alive := true,
                               subs := [Sub.weakSetter PropId.A] },
                        obsLog := [], setLog := [] } : World ℤ) PropId.B 3
            = Res.dangling w'
      ∧ (w'.get PropId.B).value = 3
      ∧ (w'.get PropId.B).subs = [Sub.weakSetter PropId.A]
      ∧ (w'.get PropId.A).subs = []
      ∧ w'.obsLog = []
      ∧ w'.setLog = [(PropId.B, 3)] := by
  have h := dangling_receiver_raises
    (w := ({ a := { value := 0, alive := false, subs := [] },
             b := { value := 0, alive := true, subs := [Sub.weakSetter PropId.A] },
             obsLog := [], setLog := [] } : World ℤ)) (v := 3) rfl rfl (by decide)
  simpa [World.get] using h

/-- C9: the subscriber built by the non-underscore
`makePropertySubscriberWithFilter` performs no dangling-target check: even
when the receiver owner `A` has been destroyed it invokes the receiver's
setter unconditionally (the call succeeds and stores the filtered value)
and never produces `DanglingFunctionError`; by contrast, on the very same
world the weak-capturing subscriber of `_makePropertySubscriberWithFilter`
fails with the dangling outcome. -/
theorem makePropertySubscriberWithFilter_unchecked (w : World α) (f : α → α) (v : α)
    (hdead : (w.get PropId.A).alive = false)
    (hsubs : (w.get PropId.A).subs = []) :
    ∃ w', exec 20 w (.run (makePropertySubscriberWithFilter PropId.A f) v) = Res.ok w'
      ∧ (w'.get PropId.A).value = f v
      ∧ exec 20 w (.run (Sub.weakSetterFilter PropId.A f) v) = Res.dangling w := by
  by_cases h : (w.get PropId.A).value = f v <;>
    simp_all [makePropertySubscriberWithFilter, exec, World.get, World.setOwner]

/-- C9 witness: the raw subscriber on a concrete world with a dead
receiver owner: it stores the filtered value while the weak subscriber
signals dangling. -/
theorem makePropertySubscriberWithFilter_unchecked_witness :
    ∃ w', exec 20 ({ a := { value := 0, alive := false, subs := [] },
                     b := { value := 0, alive := true, subs := [] },
                     obsLog := [], setLog := [] } : World ℤ)
            (.run (makePropertySubscriberWithFilter PropId.A (fun x => x + 1)) 4)
            = Res.ok w'
      ∧ (w'.get PropId.A).value = (fun x : ℤ => x + 1) 4
      ∧ exec 20 ({ a := { value := 0, alive := false, subs := [] },
                   b := { value := 0, alive := true, subs := [] },
                   obsLog := [], setLog := [] } : World ℤ)
            (.run (Sub.weakSetterFilter PropId.A (fun x => x + 1)) 4)
            = Res.dangling ({ a := { value := 0, alive := false, subs := [] },
                              b := { value := 0, alive := true, subs := [] },
                              obsLog := [], setLog := [] } : World ℤ) :=
  makePropertySubscriberWithFilter_unchecked
    (w := ({ a := { value := 0, alive := false, subs := [] },
             b := { value := 0, alive := true, subs := [] },
             obsLog := [], setLog := [] } : World ℤ)) (fun x => x + 1) 4 rfl rfl

/-- C10: `BDN_NOTIFY_PROPERTY_CHANGED` notifies with the property read
back through its read accessor at notification time, not with the setter
argument.  For the `Length` example, `setCentimeters` stores
`newValue / 100` into `_meters` and the value appended to the
notification trace is the getter's result on the updated state, i.e. the
store-then-load round trip `newValue / 100 * 100`.  For the default
`BDN_PROPERTY` storage the two coincide: a subscriber observes exactly
the value the setter stored. -/
theorem notification_value_reads_through_accessor (s : LengthState) (newValue : ℚ)
    (hch : newValue ≠ centimeters s)
    (w : World α) (p : PropId) (i : Nat) (v : α)
    (hsubs : (w.get p).subs = [Sub.observer i])
    (hne : (w.get p).value ≠ v) :
    (setCentimeters s newValue).notified
        = s.notified ++ [centimeters (setCentimeters s newValue)]
      ∧ (setCentimeters s newValue).meters = newValue / 100
      ∧ centimeters (setCentimeters s newValue) = newValue / 100 * 100
      ∧ ∃ w', setProp 20 w p v = Res.ok w'
          ∧ w'.obsLog = w.obsLog ++ [(i, v)]
          ∧ (w'.get p).value = v := by
  have hch' : newValue ≠ s.meters * 100 := by simpa [centimeters] using hch
  refine ⟨by simp [setCentimeters, centimeters, hch'],
          by simp [setCentimeters, centimeters, hch'],
          by simp [setCentimeters, centimeters, hch'], ?_⟩
  cases p <;> simp_all [setProp, exec, World.get, World.setOwner]

/-- C10 witness: setting centimeters to 5 on a fresh length stores
5/100 meters and notifies with the round-trip value, and a default
property notifies its observer with the stored value. -/
theorem notification_value_reads_through_accessor_witness :
    (setCentimeters { meters := 0, notified := [] } 5).notified
        = ([] : List ℚ) ++ [centimeters (setCentimeters { meters := 0, notified := [] } 5)]
      ∧ (setCentimeters { meters := 0, notified := [] } 5).meters = 5 / 100
      ∧ centimeters (setCentimeters { meters := 0, notified := [] } 5) = 5 / 100 * 100
      ∧ ∃ w', setProp 20 ({ a := { value := 0, alive := true, subs := [Sub.observer 1] },
                            b := { value := 0, alive := true, subs := [] },
                            obsLog := [], setLog := [] } : World ℤ) PropId.A 9 = Res.ok w'
          ∧ w'.obsLog = [] ++ [(1, 9)]
          ∧ (w'.get PropId.A).value = 9 :=
  notification_value_reads_through_accessor { meters := 0, notified := [] } 5
    (by norm_num [centimeters])
    ({ a := { value := 0, alive := true, subs := [Sub.observer 1] },
       b := { value := 0, alive := true, subs := [] },
       obsLog := [], setLog := [] } : World ℤ) PropId.A 1 9 rfl (by decide)

/-- C5: on a fresh pair of properties, `BDN_BIND_PROPERTIES` leaves `A`
and `B` with equal values (both the initial value of `B`); afterwards
setting `A` to any `v1` succeeds and leaves both properties equal to
`v1`, and then setting `B` to any `v2` succeeds and leaves both equal to
`v2`.  Every run completes within the fixed fuel 20 whatever the values
are, because the no-op-on-equal-value setter stops the mutual
notification cycle, so there is no infinite recursion. -/
theorem bindProperties_bidirectional_convergence (a0 b0 v1 v2 : α) :
    ∃ w1 w2 w3,
      bindProperties 20 (freshWorld a0 b0) PropId.A PropId.B = Res.ok w1
      ∧ w1.a.value = b0 ∧ w1.b.value = b0
      ∧ setProp 20 w1 PropId.A v1 = Res.ok w2
      ∧ w2.a.value = v1 ∧ w2.b.value = v1
      ∧ setProp 20 w2 PropId.B v2 = Res.ok w3
      ∧ w3.a.value = v2 ∧ w3.b.value = v2 := by
  by_cases h1 : a0 = b0 <;> by_cases h2 : b0 = v1 <;> by_cases h3 : v1 = v2 <;>
    simp_all [bindProperties, bindToProperty, setProp, subscribe, exec,
      freshWorld, World.get, World.setOwner]

/-- C6: a filtered binding `A ← f(B)` on a fresh pair first synchronizes
the receiver to `f` of the sender's current value, and after every
subsequent change of the sender to any `v` the receiver's value is
`f v`, so the receiver always equals the filter applied to the sender's
value. -/
theorem bindToPropertyWithFilter_consistent (a0 b0 : α) (f : α → α) :
    ∃ w1, bindToPropertyWithFilter 20 (freshWorld a0 b0) PropId.A PropId.B f = Res.ok w1
      ∧ w1.a.value = f b0 ∧ w1.b.value = b0
      ∧ ∀ v : α, ∃ w2, setProp 20 w1 PropId.B v = Res.ok w2
          ∧ w2.a.value = f v ∧ w2.b.value = v := by
  by_cases h1 : a0 = f b0 <;>
    simp_all [bindToPropertyWithFilter, setProp, subscribe, exec,
      freshWorld, World.get, World.setOwner] <;>
    (intro v
     by_cases h2 : b0 = v <;> by_cases h3 : f b0 = f v <;>
       simp_all [setProp, exec, World.get, World.setOwner])

/-- C7: a one-way binding `A ← B` on a fresh pair never mutates the
sender: the bind operation itself leaves the sender's value untouched
(only its subscriber list gains the subscription), and every subsequent
mutation of the receiver to any `v` succeeds and leaves the sender's
value and subscriber list unchanged. -/
theorem bindToProperty_one_way (a0 b0 : α) :
    ∃ w1, bindToProperty 20 (freshWorld a0 b0) PropId.A PropId.B = Res.ok w1
      ∧ w1.b.value = b0
      ∧ w1.b.subs = [Sub.weakSetter PropId.A]
      ∧ ∀ v : α, ∃ w2, setProp 20 w1 PropId.A v = Res.ok w2
          ∧ w2.b.value = b0 ∧ w2.b.subs = w1.b.subs := by
  by_cases h1 : a0 = b0 <;>
    simp_all [bindToProperty, setProp, subscribe, exec,
      freshWorld, World.get, World.setOwner] <;>
    (intro v
     by_cases h2 : b0 = v <;> simp_all [setProp, exec, World.get, World.setOwner])

end Boden
